import Mathlib

/-
Verification of the portfolio analytics engine (src/app.py) against its
natural-language specification.

The engine is embedded shallowly over exact rational arithmetic:

* a price series is the list of closing prices, chronological order
  (pandas Series of Close values);
* pandas exponentially-weighted means with adjust=False are the usual
  first-order recursion y_t = (1-alpha)*y_{t-1} + alpha*x_t, y_0 = x_0;
* a pandas NaN that a caller tests with pd.isna is modelled with Option:
  the last RSI value is None exactly when fewer than `period` bars exist
  (ewm with min_periods=period masks the leading period-1 outputs);
* a Python dict result is a structure; a key the producing code never
  writes is an Option field set to none, and dict.get(key, 0) is getD 0;
* formatted message strings are modelled by constructors carrying the
  numbers that the format string would interpolate;
* a Python function that can only fail by raising inside its try/except
  (division by zero on a degenerate input) returns Option, none on the
  guarded inputs.
-/

/-- Machine epsilon used by the source (np.finfo(float).eps = 2^-52). -/
def float_eps : ℚ := 1 / 2 ^ 52

/-- Successive differences of a series: pandas Series.diff, with the
leading NaN dropped (its consumers replace it by 0, see gains/losses). -/
def series_diff : List ℚ → List ℚ
  | [] => []
  | [_] => []
  | x :: y :: rest => (y - x) :: series_diff (y :: rest)

/-- delta.where(delta > 0, 0): positive part of each difference, with the
leading NaN difference replaced by 0 (NaN > 0 is False, so pandas fills 0).
Empty input gives the empty series, matching pandas. -/
def gains (prices : List ℚ) : List ℚ :=
  match prices with
  | [] => []
  | _ :: _ => 0 :: (series_diff prices).map (fun d => if d > 0 then d else 0)

/-- -delta.where(delta < 0, 0): negated negative part of each difference,
leading NaN replaced by 0. -/
def losses (prices : List ℚ) : List ℚ :=
  match prices with
  | [] => []
  | _ :: _ => 0 :: (series_diff prices).map (fun d => if d < 0 then -d else 0)

/-- Tail of the adjust=False exponentially weighted mean: each output is
(1 - alpha) * previous output + alpha * current input. -/
def ewm_go (alpha prev : ℚ) : List ℚ → List ℚ
  | [] => []
  | y :: ys => ((1 - alpha) * prev + alpha * y) :: ewm_go alpha ((1 - alpha) * prev + alpha * y) ys

/-- pandas Series.ewm(alpha, adjust=False).mean(): the first output equals
the first input, later outputs follow the first-order recursion. -/
def ewm_mean (alpha : ℚ) : List ℚ → List ℚ
  | [] => []
  | x :: xs => x :: ewm_go alpha x xs

/-- calculate_rsi (src/app.py lines 727-736), the full value series:
Wilder smoothing of gains and losses with alpha = 1/period, zero average
loss replaced by machine epsilon, rsi = 100 - 100/(1 + rs). -/
def calculate_rsi (period : ℕ) (prices : List ℚ) : List ℚ :=
  let avg_gain := ewm_mean (1 / (period : ℚ)) (gains prices)
  let avg_loss := ewm_mean (1 / (period : ℚ)) (losses prices)
  List.zipWith
    (fun g l => 100 - 100 / (1 + g / (if l = 0 then float_eps else l)))
    avg_gain avg_loss

/-- Last RSI value as its callers see it: ewm(min_periods=period) leaves
the first period-1 outputs NaN, so .iloc[-1] is NaN exactly when the
series has fewer than `period` bars; NaN is modelled as none. -/
def calculate_rsi_last (period : ℕ) (prices : List ℚ) : Option ℚ :=
  if prices.length < period then none
  else (calculate_rsi period prices).getLast?

/-- calculate_macd (src/app.py lines 738-745), histogram series:
macd = ewm(span=12) - ewm(span=26); signal = ewm(macd, span=9);
histogram = macd - signal.  span s gives alpha = 2/(s+1). -/
def calculate_macd_histogram (prices : List ℚ) : List ℚ :=
  let exp_fast := ewm_mean (2 / 13) prices
  let exp_slow := ewm_mean (2 / 27) prices
  let macd := List.zipWith (fun a b => a - b) exp_fast exp_slow
  let signal_line := ewm_mean (2 / 10) macd
  List.zipWith (fun a b => a - b) macd signal_line

example : series_diff [1, 3, 2] = [2, -1] := by norm_num [series_diff]
example : gains [1, 3, 2] = [0, 2, 0] := by norm_num [gains, series_diff]
example : losses [1, 3, 2] = [0, 0, 1] := by norm_num [losses, series_diff]
example : ewm_mean (1 / 2) [4, 2] = [4, 3] := by norm_num [ewm_mean, ewm_go]
example : calculate_rsi_last 14 (List.replicate 13 (100 : ℚ)) = none := by
  norm_num [calculate_rsi_last]
example : calculate_rsi_last 14 (List.replicate 15 (100 : ℚ)) = some 0 := by
  norm_num [calculate_rsi_last, calculate_rsi, gains, losses, series_diff,
    ewm_mean, ewm_go, float_eps, List.replicate]
example : calculate_macd_histogram [(100 : ℚ)] = [0] := by
  norm_num [calculate_macd_histogram, ewm_mean, ewm_go]

/-- calculate_momentum_score (src/app.py lines 863-892): baseline 50,
one RSI-zone adjustment, one MACD-histogram adjustment, clamp to [0,100],
then the trend label.  The empty components dict is dropped. -/
def calculate_momentum_score (df : List ℚ) : ℚ × String :=
  let rsi := (calculate_rsi_last 14 df).getD 50
  let score1 : ℚ :=
    if rsi > 70 then 50 - 10
    else if rsi > 60 then 50 + 15
    else if rsi > 50 then 50 + 10
    else if rsi < 30 then 50 + 10
    else 50 - 10
  let hist := (calculate_macd_histogram df).getLast?.getD 0
  let score2 := if hist > 0 then score1 + 20 else score1 - 20
  let score := max 0 (min 100 score2)
  let trend :=
    if score ≥ 70 then "STRONG BULLISH"
    else if score ≥ 55 then "BULLISH"
    else if score ≥ 45 then "NEUTRAL"
    else if score ≥ 30 then "BEARISH"
    else "STRONG BEARISH"
  (score, trend)

/-- A reason string built by predict_sl_risk; each constructor carries the
distance percentage its format string interpolates. -/
inductive SLReason where
  | breached
  | veryClose (distance_pct : ℚ)
  | closeTo (distance_pct : ℚ)
  | approaching (distance_pct : ℚ)
deriving DecidableEq

/-- Return value of predict_sl_risk: the risk score, the accumulated
reasons, and the recommendation/priority pair. -/
structure SLAssessment where
  risk_score : ℚ
  reasons : List SLReason
  recommendation : String
  priority : String
deriving DecidableEq

/-- predict_sl_risk (src/app.py lines 894-934): direction-aware distance
to the stop as a percentage of current price, tiered additive score
clamped by min 100, then recommendation and priority.  The df and
entry_price arguments are accepted but unused, as in the source. -/
def predict_sl_risk (df : List ℚ) (current_price stop_loss : ℚ)
    (position_type : String) (entry_price : ℚ) : SLAssessment :=
  let distance_pct :=
    if position_type = "LONG" then (current_price - stop_loss) / current_price * 100
    else (stop_loss - current_price) / current_price * 100
  let scored : ℚ × List SLReason :=
    if distance_pct < 0 then (100, [SLReason.breached])
    else if distance_pct < 1 then (0 + 40, [SLReason.veryClose distance_pct])
    else if distance_pct < 2 then (0 + 30, [SLReason.closeTo distance_pct])
    else if distance_pct < 3 then (0 + 15, [SLReason.approaching distance_pct])
    else (0, [])
  let risk_score := min 100 scored.1
  let rec_priority : String × String :=
    if risk_score ≥ 80 then ("🚨 EXIT NOW", "CRITICAL")
    else if risk_score ≥ 60 then ("⚠️ CONSIDER EXIT", "HIGH")
    else if risk_score ≥ 40 then ("👀 WATCH CLOSELY", "MEDIUM")
    else ("✅ SAFE", "LOW")
  ⟨risk_score, scored.2, rec_priority.1, rec_priority.2⟩

/-- The dict returned by get_market_health (src/app.py lines 505-516);
the formatted message string is omitted, its numeric inputs are kept. -/
structure MarketHealth where
  status : String
  health_score : ℚ
  color : String
  icon : String
  action : String
  nifty_price : ℚ
  nifty_change : ℚ
  nifty_rsi : ℚ
  vix : ℚ
deriving DecidableEq

/-- get_market_health (src/app.py lines 450-518), pure core: the data
fetch supplies the benchmark price and change, its SMA20/SMA50, its RSI
(already defaulted to 50 when NaN) and the volatility index; this is the
score computation of lines 472-491 and the status mapping of lines
493-516. -/
def get_market_health (nifty_price nifty_change nifty_sma20 nifty_sma50
    nifty_rsi vix_value : ℚ) : MarketHealth :=
  let s1 : ℚ := if nifty_price > nifty_sma20 then 50 + 15 else 50 - 15
  let s2 := if nifty_price > nifty_sma50 then s1 + 10 else s1
  let s3 := if nifty_rsi > 55 then s2 + 15 else if nifty_rsi < 35 then s2 - 15 else s2
  let s4 := if vix_value < 15 then s3 + 10 else if vix_value > 25 then s3 - 20 else s3
  let s5 := if nifty_sma20 > nifty_sma50 then s4 + 10 else s4
  let health_score := max 0 (min 100 s5)
  { status :=
      if health_score ≥ 70 then "BULLISH"
      else if health_score ≥ 50 then "NEUTRAL"
      else "BEARISH"
    health_score := health_score
    color :=
      if health_score ≥ 70 then "#28a745"
      else if health_score ≥ 50 then "#ffc107"
      else "#dc3545"
    icon :=
      if health_score ≥ 70 then "🟢"
      else if health_score ≥ 50 then "🟡"
      else "🔴"
    action :=
      if health_score ≥ 70 then "✅ Good environment for trading"
      else if health_score ≥ 50 then "⚠️ Be selective with positions"
      else "🚨 HIGH RISK - Consider reducing"
    nifty_price := nifty_price
    nifty_change := nifty_change
    nifty_rsi := nifty_rsi
    vix := vix_value }

/-- An alert dict appended by smart_analyze_position; each constructor
carries the sl_risk value its message interpolates.  highRisk stands for
the CRITICAL/EXIT NOW alert, moderateRisk for the HIGH/WATCH CLOSELY
alert. -/
inductive Alert where
  | highRisk (sl_risk : ℚ)
  | moderateRisk (sl_risk : ℚ)
deriving DecidableEq

/-- The result dict built by smart_analyze_position (src/app.py lines
1150-1173).  The dict literal in the source contains no day_low or
day_high key, so those are Option fields that the analyzer leaves none;
detect_emergency_exit reads them with dict.get(key, 0), i.e. getD 0. -/
structure AnalysisResult where
  ticker : String
  position_type : String
  entry_price : ℚ
  current_price : ℚ
  quantity : ℚ
  pnl_percent : ℚ
  pnl_amount : ℚ
  day_change : ℚ
  stop_loss : ℚ
  target1 : ℚ
  target2 : ℚ
  rsi : ℚ
  macd_hist : ℚ
  macd_signal : String
  momentum_score : ℚ
  momentum_trend : String
  sl_risk : ℚ
  sl_reasons : List SLReason
  sl_recommendation : String
  alerts : List Alert
  overall_status : String
  df : List ℚ
  day_low : Option ℚ
  day_high : Option ℚ
deriving DecidableEq

/-- smart_analyze_position (src/app.py lines 1084-1181).  price_data is
the series get_stock_data_safe would return (none models both fetch
failure and a None frame).  A zero entry price, previous close or current
price would raise ZeroDivisionError inside the try block, which the
except handler turns into None; those inputs therefore map to none. -/
def smart_analyze_position (price_data : Option (List ℚ)) (ticker position_type : String)
    (entry_price quantity stop_loss target1 target2 trail_threshold sl_alert_threshold : ℚ)
    (enable_mtf : Bool) (entry_date : Option String) : Option AnalysisResult :=
  match price_data with
  | none => none
  | some df =>
    if df.isEmpty then none
    else
      let current_price := df.getLast?.getD 0
      let prev_close := if 1 < df.length then df.dropLast.getLast?.getD 0 else current_price
      if prev_close = 0 ∨ entry_price = 0 ∨ current_price = 0 then none
      else
        let day_change := (current_price - prev_close) / prev_close * 100
        let pnl_percent :=
          if position_type = "LONG" then (current_price - entry_price) / entry_price * 100
          else (entry_price - current_price) / entry_price * 100
        let pnl_amount :=
          if position_type = "LONG" then (current_price - entry_price) * quantity
          else (entry_price - current_price) * quantity
        let rsi := (calculate_rsi_last 14 df).getD 50
        let macd_hist := (calculate_macd_histogram df).getLast?.getD 0
        let macd_signal := if macd_hist > 0 then "BULLISH" else "BEARISH"
        let momentum := calculate_momentum_score df
        let slr := predict_sl_risk df current_price stop_loss position_type entry_price
        let alerts : List Alert :=
          if slr.risk_score ≥ 80 then [Alert.highRisk slr.risk_score]
          else if slr.risk_score ≥ sl_alert_threshold then [Alert.moderateRisk slr.risk_score]
          else []
        let overall_status :=
          if slr.risk_score ≥ 80 then "CRITICAL"
          else if slr.risk_score ≥ sl_alert_threshold then "WARNING"
          else "OK"
        some
          { ticker := ticker
            position_type := position_type
            entry_price := entry_price
            current_price := current_price
            quantity := quantity
            pnl_percent := pnl_percent
            pnl_amount := pnl_amount
            day_change := day_change
            stop_loss := stop_loss
            target1 := target1
            target2 := target2
            rsi := rsi
            macd_hist := macd_hist
            macd_signal := macd_signal
            momentum_score := momentum.1
            momentum_trend := momentum.2
            sl_risk := slr.risk_score
            sl_reasons := slr.reasons
            sl_recommendation := slr.recommendation
            alerts := alerts
            overall_status := overall_status
            df := df
            day_low := none
            day_high := none }

/-- True when the caller has a market-health dict whose status is
BEARISH: the Python test `market_health and market_health[...] == ...`
with a None-able dict. -/
def mh_is_bearish : Option MarketHealth → Bool
  | some h => h.status == "BEARISH"
  | none => false

/-- market_health.get(vix, 0) guarded by `market_health and ...`:
an absent dict reads as 0, which fails the > 25 test exactly like the
Python conjunction. -/
def mh_vix : Option MarketHealth → ℚ
  | some h => h.vix
  | none => 0

/-- A reason string appended by detect_emergency_exit. -/
inductive EmergencyReason where
  | bearishDown (pnl_percent : ℚ)
  | gapDown
  | gapUp
  | vixSpike
deriving DecidableEq

/-- detect_emergency_exit (src/app.py lines 525-554): three independent
rules, each setting emergency and CRITICAL urgency and appending its
reason. -/
def detect_emergency_exit (result : AnalysisResult) (market_health : Option MarketHealth) :
    Bool × List EmergencyReason × String :=
  let s1 : Bool × List EmergencyReason × String :=
    if mh_is_bearish market_health ∧ result.pnl_percent < -2 then
      (true, [EmergencyReason.bearishDown result.pnl_percent], "CRITICAL")
    else (false, [], "NORMAL")
  let s2 : Bool × List EmergencyReason × String :=
    if result.position_type = "LONG" then
      if result.day_low.getD 0 < result.stop_loss * (98 / 100) then
        (true, s1.2.1 ++ [EmergencyReason.gapDown], "CRITICAL")
      else s1
    else
      if result.day_high.getD 0 > result.stop_loss * (102 / 100) then
        (true, s1.2.1 ++ [EmergencyReason.gapUp], "CRITICAL")
      else s1
  if mh_vix market_health > 25 ∧ result.sl_risk > 60 then
    (true, s2.2.1 ++ [EmergencyReason.vixSpike], "CRITICAL")
  else s2

/-- One row of the portfolio frame as the batch loop reads it. -/
structure PositionRow where
  ticker : String
  position : String
  entry_price : ℚ
  quantity : ℚ
  stop_loss : ℚ
  target_1 : ℚ
  target_2 : ℚ
deriving DecidableEq

/-- The per-position batch loop of main (src/app.py lines 1451-1476):
analyze each row and keep only the non-None results, in order. -/
def analyze_batch (price_data : String → Option (List ℚ))
    (trail_threshold sl_alert_threshold : ℚ) : List PositionRow → List AnalysisResult
  | [] => []
  | row :: rest =>
    match smart_analyze_position (price_data row.ticker) row.ticker row.position
        row.entry_price row.quantity row.stop_loss row.target_1 row.target_2
        trail_threshold sl_alert_threshold true none with
    | some result => result :: analyze_batch price_data trail_threshold sl_alert_threshold rest
    | none => analyze_batch price_data trail_threshold sl_alert_threshold rest

/-- The static ticker-to-sector lookup of analyze_sector_exposure, with
.get(ticker, OTHER) for unknown tickers. -/
def sector_map (ticker : String) : String :=
  if ticker = "TCS" ∨ ticker = "INFY" ∨ ticker = "WIPRO" ∨ ticker = "HCL" then "IT"
  else if ticker = "RELIANCE" ∨ ticker = "ONGC" then "ENERGY"
  else if ticker = "HDFC" ∨ ticker = "ICICI" ∨ ticker = "AXIS" then "FINANCE"
  else if ticker = "BAJAJ" ∨ ticker = "MARUTI" then "AUTO"
  else if ticker = "ITC" ∨ ticker = "BRITANNIA" then "CONSUMER"
  else "OTHER"

/-- Insertion-ordered dict accumulation: sector_exposure[sector] += value,
creating the key at the end on first sight, as a Python dict does. -/
def add_exposure (sector : String) (value : ℚ) : List (String × ℚ) → List (String × ℚ)
  | [] => [(sector, value)]
  | (k, v) :: rest =>
    if k = sector then (k, v + value) :: rest
    else (k, v) :: add_exposure sector value rest

/-- A concentration warning emitted by analyze_sector_exposure, carrying
the sector and percentage its format string interpolates. -/
inductive SectorWarning where
  | overConcentrated (sector : String) (pct : ℚ)
  | highConcentration (sector : String) (pct : ℚ)
deriving DecidableEq

/-- Return value of analyze_sector_exposure. -/
structure SectorExposureReport where
  exposure : List (String × ℚ)
  percentage : List (String × ℚ)
  warnings : List SectorWarning
deriving DecidableEq

/-- analyze_sector_exposure (src/app.py lines 993-1029).  Note the
source computes total_value as Quantity.sum() * Entry_Price.mean(), the
quantity total times the mean entry price, not the summed position
value. -/
def analyze_sector_exposure (portfolio : List PositionRow) : SectorExposureReport :=
  let total_value :=
    (portfolio.map (fun r => r.quantity)).sum *
      ((portfolio.map (fun r => r.entry_price)).sum / (portfolio.length : ℚ))
  let exposure := portfolio.foldl
    (fun acc row => add_exposure (sector_map row.ticker) (row.quantity * row.entry_price) acc) []
  let percentage := exposure.map (fun kv => (kv.1, kv.2 / total_value * 100))
  let warnings := percentage.filterMap (fun kv =>
    if kv.2 > 40 then some (SectorWarning.overConcentrated kv.1 kv.2)
    else if kv.2 > 30 then some (SectorWarning.highConcentration kv.1 kv.2)
    else none)
  ⟨exposure, percentage, warnings⟩

/-- Modelled from the spec (section 4.9): the overall-status rule list the
spec describes for a LONG position, evaluated top to bottom, first match
wins: stop-loss breached, target_2 reached, target_1 reached, sl_risk at
or above the alert threshold, unrealized gain of at least +2%, else OK. -/
def spec_overall_status_long (current_price stop_loss target_1 target_2
    sl_risk sl_alert_threshold pnl_percent : ℚ) : String :=
  if current_price < stop_loss then "CRITICAL"
  else if current_price ≥ target_2 then "SUCCESS"
  else if current_price ≥ target_1 then "OPPORTUNITY"
  else if sl_risk ≥ sl_alert_threshold then "WARNING"
  else if pnl_percent ≥ 2 then "GOOD"
  else "OK"

/-- Modelled from the spec (section 4.2): baseline 50 plus four additive
adjustments, summed and clamped to [0,100]. -/
def spec_momentum_from_adjustments (rsi_adj macd_adj ma_adj ret5_adj : ℚ) : ℚ :=
  max 0 (min 100 (50 + rsi_adj + macd_adj + ma_adj + ret5_adj))

/-- Modelled from the spec (section 4.2): the RSI-zone adjustment the spec
lists: above 70 gives -10; above 60 gives +15; above 50 gives +10; above
40 gives -5; above 30 gives -15; else +10. -/
def spec_rsi_zone_adjustment (rsi : ℚ) : ℚ :=
  if rsi > 70 then -10
  else if rsi > 60 then 15
  else if rsi > 50 then 10
  else if rsi > 40 then -5
  else if rsi > 30 then -15
  else 10

/-- The RSI-zone adjustment the source applies (the summand the branches
of calculate_momentum_score add to the baseline 50). -/
def code_rsi_zone_adjustment (rsi : ℚ) : ℚ :=
  if rsi > 70 then -10
  else if rsi > 60 then 15
  else if rsi > 50 then 10
  else if rsi < 30 then 10
  else -10

/-- Modelled from the spec (section 4.4): the four-tier status mapping
the spec gives for market health, including the WEAK tier. -/
def spec_market_health_status (health_score : ℚ) : String :=
  if health_score ≥ 70 then "BULLISH"
  else if health_score ≥ 50 then "NEUTRAL"
  else if health_score ≥ 30 then "WEAK"
  else "BEARISH"

/-- Clamping with max 0 (min 100 x) lands in [0, 100]. -/
theorem clamp_bounds (x : ℚ) : 0 ≤ max 0 (min 100 x) ∧ max 0 (min 100 x) ≤ 100 :=
  ⟨le_max_left 0 _, max_le (by norm_num) (min_le_left 100 x)⟩

/-- Successive differences of a constant series are all zero. -/
theorem series_diff_replicate (c : ℚ) : (N : ℕ) →
    series_diff (List.replicate N c) = List.replicate (N - 1) 0
  | 0 => rfl
  | 1 => rfl
  | (n + 2) => by
    show series_diff (c :: c :: List.replicate n c) = List.replicate (n + 1) 0
    rw [show series_diff (c :: c :: List.replicate n c)
          = (c - c) :: series_diff (c :: List.replicate n c) from rfl]
    rw [show (c :: List.replicate n c) = List.replicate (n + 1) c from rfl]
    rw [series_diff_replicate c (n + 1)]
    simp [List.replicate_succ]

/-- The gain series of a constant series is all zero. -/
theorem gains_replicate (c : ℚ) (N : ℕ) (h : 1 ≤ N) :
    gains (List.replicate N c) = List.replicate N 0 := by
  cases N with
  | zero => exact absurd h (by norm_num)
  | succ n =>
    rw [List.replicate_succ, gains, ← List.replicate_succ, series_diff_replicate]
    simp [List.replicate_succ]

/-- The loss series of a constant series is all zero. -/
theorem losses_replicate (c : ℚ) (N : ℕ) (h : 1 ≤ N) :
    losses (List.replicate N c) = List.replicate N 0 := by
  cases N with
  | zero => exact absurd h (by norm_num)
  | succ n =>
    rw [List.replicate_succ, losses, ← List.replicate_succ, series_diff_replicate]
    simp [List.replicate_succ]

/-- The exponential mean recursion maps an all-zero tail to zeros when the
running value is zero. -/
theorem ewm_go_zero (alpha : ℚ) : (k : ℕ) →
    ewm_go alpha 0 (List.replicate k 0) = List.replicate k 0
  | 0 => rfl
  | (k + 1) => by
    rw [List.replicate_succ, ewm_go]
    simp only [mul_zero, add_zero]
    rw [ewm_go_zero alpha k]

/-- The exponential mean of an all-zero series is all zero. -/
theorem ewm_mean_zero (alpha : ℚ) (k : ℕ) :
    ewm_mean alpha (List.replicate k 0) = List.replicate k 0 := by
  cases k with
  | zero => rfl
  | succ n =>
    rw [List.replicate_succ, ewm_mean, ewm_go_zero]

/-- Claim C3, counterexample: on a flat series of 15 closes at 100 (more
than the period of 14) the last RSI value the source computes is exactly
0, not the 50 the claim states; the value is defined (some, not NaN). -/
theorem rsi_flat_series_c3_counterexample :
    calculate_rsi_last 14 (List.replicate 15 (100 : ℚ)) = some 0 ∧ (0 : ℚ) ≠ 50 := by
  constructor
  · norm_num [calculate_rsi_last, calculate_rsi, gains, losses, series_diff,
      ewm_mean, ewm_go, float_eps, List.replicate]
  · norm_num

/-- Claim C3 as amended: for every flat series of N identical positive
closes with N greater than the RSI period, the last RSI value is defined
(not NaN, no exception) and equals exactly 0 — not 50: both smoothed
averages are zero, the zero average loss is replaced by epsilon, so
rs = 0 and rsi = 100 - 100/(1+0) = 0. -/
theorem rsi_flat_series_c3 (c : ℚ) (N period : ℕ) (hc : 0 < c) (hN : period < N) :
    calculate_rsi_last period (List.replicate N c) = some 0 := by
  have hN1 : 1 ≤ N := Nat.one_le_iff_ne_zero.mpr (by omega)
  have hlen : ¬((List.replicate N c).length < period) := by
    rw [List.length_replicate]; omega
  rw [calculate_rsi_last, if_neg hlen]
  rw [calculate_rsi]
  rw [gains_replicate c N hN1, losses_replicate c N hN1, ewm_mean_zero]
  rw [List.zipWith_replicate']
  have hval : (100 : ℚ) - 100 / (1 + 0 / (if (0 : ℚ) = 0 then float_eps else 0)) = 0 := by
    norm_num
  rw [hval, List.getLast?_replicate, if_neg (by omega)]

/-- Witness for the amended claim C3 at the concrete flat series of
15 closes at 100 with period 14. -/
theorem rsi_flat_series_c3_witness :
    (0 : ℚ) < 100 ∧ 14 < 15 ∧
      calculate_rsi_last 14 (List.replicate 15 (100 : ℚ)) = some 0 :=
  ⟨by norm_num, by norm_num, rsi_flat_series_c3 100 15 14 (by norm_num) (by norm_num)⟩

/-- Every element of the gain series is nonnegative. -/
theorem gains_nonneg (prices : List ℚ) : ∀ x ∈ gains prices, 0 ≤ x := by
  cases prices with
  | nil => intro x hx; simp [gains] at hx
  | cons p ps =>
    intro x hx
    rw [gains] at hx
    rcases List.mem_cons.mp hx with h | h
    · simp [h]
    · obtain ⟨d, _, rfl⟩ := List.mem_map.mp h
      split <;> [linarith; rfl]

/-- Every element of the loss series is nonnegative. -/
theorem losses_nonneg (prices : List ℚ) : ∀ x ∈ losses prices, 0 ≤ x := by
  cases prices with
  | nil => intro x hx; simp [losses] at hx
  | cons p ps =>
    intro x hx
    rw [losses] at hx
    rcases List.mem_cons.mp hx with h | h
    · simp [h]
    · obtain ⟨d, hd, rfl⟩ := List.mem_map.mp h
      split <;> [linarith; rfl]

/-- The exponential mean recursion preserves nonnegativity when the
smoothing factor lies in [0, 1]. -/
theorem ewm_go_nonneg (alpha : ℚ) (h0 : 0 ≤ alpha) (h1 : alpha ≤ 1) :
    ∀ (l : List ℚ) (prev : ℚ), 0 ≤ prev → (∀ x ∈ l, 0 ≤ x) →
      ∀ y ∈ ewm_go alpha prev l, 0 ≤ y := by
  intro l
  induction l with
  | nil => intro prev _ _ y hy; simp [ewm_go] at hy
  | cons a as ih =>
    intro prev hprev hl y hy
    have hv : 0 ≤ (1 - alpha) * prev + alpha * a :=
      add_nonneg (mul_nonneg (by linarith) hprev)
        (mul_nonneg h0 (hl a (List.mem_cons_self _ _)))
    rw [ewm_go] at hy
    rcases List.mem_cons.mp hy with h | h
    · exact h ▸ hv
    · exact ih _ hv (fun x hx => hl x (List.mem_cons_of_mem a hx)) y h

/-- The exponential mean of a nonnegative series is nonnegative when the
smoothing factor lies in [0, 1]. -/
theorem ewm_mean_nonneg (alpha : ℚ) (h0 : 0 ≤ alpha) (h1 : alpha ≤ 1)
    (l : List ℚ) (hl : ∀ x ∈ l, 0 ≤ x) : ∀ y ∈ ewm_mean alpha l, 0 ≤ y := by
  cases l with
  | nil => intro y hy; simp [ewm_mean] at hy
  | cons a as =>
    intro y hy
    rw [ewm_mean] at hy
    rcases List.mem_cons.mp hy with h | h
    · exact h ▸ hl a (List.mem_cons_self _ _)
    · exact ewm_go_nonneg alpha h0 h1 as a (hl a (List.mem_cons_self _ _))
        (fun x hx => hl x (List.mem_cons_of_mem a hx)) y h

/-- Membership in a zipWith decomposes into members of both lists. -/
theorem exists_of_mem_zipWith_lists {α β γ : Type} (f : α → β → γ) :
    ∀ (as : List α) (bs : List β) (z : γ), z ∈ List.zipWith f as bs →
      ∃ a ∈ as, ∃ b ∈ bs, z = f a b := by
  intro as
  induction as with
  | nil => intro bs z hz; simp at hz
  | cons a as ih =>
    intro bs z hz
    cases bs with
    | nil => simp at hz
    | cons b bs =>
      rw [List.zipWith_cons_cons] at hz
      rcases List.mem_cons.mp hz with h | h
      · exact ⟨a, List.mem_cons_self _ _, b, List.mem_cons_self _ _, h⟩
      · obtain ⟨x, hx, y, hy, rfl⟩ := ih bs z h
        exact ⟨x, List.mem_cons_of_mem a hx, y, List.mem_cons_of_mem b hy, rfl⟩

/-- Each value of the RSI formula on nonnegative smoothed gain and loss
lies in [0, 100]: the epsilon-guarded denominator is positive, so the
ratio rs is nonnegative and 100/(1+rs) lies in (0, 100]. -/
theorem rsi_value_bounds (g l : ℚ) (hg : 0 ≤ g) (hl : 0 ≤ l) :
    0 ≤ 100 - 100 / (1 + g / (if l = 0 then float_eps else l)) ∧
      100 - 100 / (1 + g / (if l = 0 then float_eps else l)) ≤ 100 := by
  have hden : 0 < (if l = 0 then float_eps else l) := by
    split
    · norm_num [float_eps]
    · rcases lt_or_eq_of_le hl with h | h
      · exact h
      · simp_all
  have hrs : 0 ≤ g / (if l = 0 then float_eps else l) := div_nonneg hg hden.le
  have h1 : 100 / (1 + g / (if l = 0 then float_eps else l)) ≤ 100 :=
    div_le_self (by norm_num) (by linarith)
  have h2 : 0 < 100 / (1 + g / (if l = 0 then float_eps else l)) :=
    div_pos (by norm_num) (by linarith)
  constructor <;> linarith

/-- Claim C4: every computed score lies in [0, 100] — the last RSI value
whenever it is defined (for any positive period), the momentum score, the
stop-loss risk score, and the market health score. -/
theorem scores_bounded_c4 :
    (∀ (period : ℕ) (prices : List ℚ) (x : ℚ), 1 ≤ period →
      calculate_rsi_last period prices = some x → 0 ≤ x ∧ x ≤ 100) ∧
    (∀ df : List ℚ,
      0 ≤ (calculate_momentum_score df).1 ∧ (calculate_momentum_score df).1 ≤ 100) ∧
    (∀ (df : List ℚ) (current_price stop_loss entry_price : ℚ) (position_type : String),
      0 ≤ (predict_sl_risk df current_price stop_loss position_type entry_price).risk_score ∧
        (predict_sl_risk df current_price stop_loss position_type entry_price).risk_score ≤ 100) ∧
    (∀ nifty_price nifty_change nifty_sma20 nifty_sma50 nifty_rsi vix_value : ℚ,
      0 ≤ (get_market_health nifty_price nifty_change nifty_sma20 nifty_sma50
            nifty_rsi vix_value).health_score ∧
        (get_market_health nifty_price nifty_change nifty_sma20 nifty_sma50
            nifty_rsi vix_value).health_score ≤ 100) := by
  refine ⟨?_, ?_, ?_, ?_⟩
  · intro period prices x hperiod hx
    rw [calculate_rsi_last] at hx
    split at hx
    · exact absurd hx (by simp)
    · have hmem : x ∈ calculate_rsi period prices := List.mem_of_getLast?_eq_some hx
      rw [calculate_rsi] at hmem
      obtain ⟨g, hg, l, hl, rfl⟩ := exists_of_mem_zipWith_lists _ _ _ _ hmem
      have halpha0 : (0 : ℚ) ≤ 1 / (period : ℚ) := by positivity
      have hp : (0 : ℚ) < (period : ℚ) := by exact_mod_cast hperiod
      have halpha1 : (1 : ℚ) / (period : ℚ) ≤ 1 := by
        rw [div_le_one hp]
        exact_mod_cast hperiod
      exact rsi_value_bounds g l
        (ewm_mean_nonneg _ halpha0 halpha1 _ (gains_nonneg prices) g hg)
        (ewm_mean_nonneg _ halpha0 halpha1 _ (losses_nonneg prices) l hl)
  · intro df
    exact clamp_bounds _
  · intro df current_price stop_loss entry_price position_type
    constructor
    · refine le_min (by norm_num) ?_
      split_ifs <;> norm_num
    · exact min_le_left _ _
  · intro p ch s20 s50 rsi vix
    exact clamp_bounds _

/-- Witness for claim C4 at a concrete input: the defined last RSI value
of a 15-bar flat series lies in [0, 100]. -/
theorem scores_bounded_c4_witness :
    0 ≤ (calculate_rsi_last 14 (List.replicate 15 (100 : ℚ))).getD 50 ∧
      (calculate_rsi_last 14 (List.replicate 15 (100 : ℚ))).getD 50 ≤ 100 := by
  have heval : calculate_rsi_last 14 (List.replicate 15 (100 : ℚ)) = some 0 := by
    norm_num [calculate_rsi_last, calculate_rsi, gains, losses, series_diff,
      ewm_mean, ewm_go, float_eps, List.replicate]
  have h := scores_bounded_c4.1 14 (List.replicate 15 (100 : ℚ)) 0 (by norm_num) heval
  rw [heval]
  exact h

/-- Claim C2, counterexample: a LONG position whose current price equals
the stop loss (current_price ≤ stop_loss as the claim states) has
distance 0, which is not negative, so the source returns risk 40 with no
breach reason — not 100 with a breach reason. -/
theorem sl_breach_c2_counterexample :
    (predict_sl_risk [] 100 100 "LONG" 100).risk_score = 40 ∧
      SLReason.breached ∉ (predict_sl_risk [] 100 100 "LONG" 100).reasons ∧
      (40 : ℚ) ≠ 100 := by
  refine ⟨?_, ?_, by norm_num⟩ <;> norm_num [predict_sl_risk] <;> decide

/-- Claim C2 as amended: for every LONG position with positive prices and
current_price strictly below stop_loss, the risk score is exactly 100 and
the breach reason is present. -/
theorem sl_breach_c2 (df : List ℚ) (current_price stop_loss entry_price : ℚ)
    (hcp : 0 < current_price) (hlt : current_price < stop_loss) :
    (predict_sl_risk df current_price stop_loss "LONG" entry_price).risk_score = 100 ∧
      SLReason.breached ∈ (predict_sl_risk df current_price stop_loss "LONG" entry_price).reasons := by
  have hd : (current_price - stop_loss) / current_price * 100 < 0 :=
    mul_neg_of_neg_of_pos (div_neg_of_neg_of_pos (by linarith) hcp) (by norm_num)
  constructor <;> simp [predict_sl_risk, hd]

/-- Witness for the amended claim C2 at current price 90, stop loss 100. -/
theorem sl_breach_c2_witness :
    (predict_sl_risk [] 90 100 "LONG" 100).risk_score = 100 ∧
      SLReason.breached ∈ (predict_sl_risk [] 90 100 "LONG" 100).reasons :=
  sl_breach_c2 [] 90 100 100 (by norm_num) (by norm_num)

/-- The exponential mean recursion leaves a constant series unchanged. -/
theorem ewm_go_const (alpha c : ℚ) : (k : ℕ) →
    ewm_go alpha c (List.replicate k c) = List.replicate k c
  | 0 => rfl
  | (k + 1) => by
    rw [List.replicate_succ, ewm_go]
    have hv : (1 - alpha) * c + alpha * c = c := by ring
    rw [hv, ewm_go_const alpha c k]

/-- The exponential mean of a constant series is that series. -/
theorem ewm_mean_const (alpha c : ℚ) (k : ℕ) :
    ewm_mean alpha (List.replicate k c) = List.replicate k c := by
  cases k with
  | zero => rfl
  | succ n =>
    rw [List.replicate_succ, ewm_mean, ewm_go_const]

/-- The MACD histogram of a constant series is all zero. -/
theorem macd_histogram_replicate (c : ℚ) (N : ℕ) :
    calculate_macd_histogram (List.replicate N c) = List.replicate N 0 := by
  rw [calculate_macd_histogram]
  rw [ewm_mean_const, ewm_mean_const, List.zipWith_replicate']
  rw [sub_self, ewm_mean_zero, List.zipWith_replicate', sub_self]

/-- Claim C5, counterexample at the flat 15-bar series at 100.  There the
source momentum score is 40 and the last RSI value is exactly 0.  Under
the claim's formula the moving-average alignment term is -20 (price,
EMA9, SMA20 and SMA50 all coincide, so each of the four comparisons is
false) and the 5-bar return term is 0; with the RSI-zone adjustment taken
at the actual RSI of 0 (or at the neutral default 50), no choice of the
claim's four possible MACD adjustments (+20, +10, -20, -10) produces
40. -/
theorem momentum_formula_c5_counterexample :
    (calculate_momentum_score (List.replicate 15 (100 : ℚ))).1 = 40 ∧
      calculate_rsi_last 14 (List.replicate 15 (100 : ℚ)) = some 0 ∧
      spec_momentum_from_adjustments (spec_rsi_zone_adjustment 0) 20 (-20) 0 ≠ 40 ∧
      spec_momentum_from_adjustments (spec_rsi_zone_adjustment 0) 10 (-20) 0 ≠ 40 ∧
      spec_momentum_from_adjustments (spec_rsi_zone_adjustment 0) (-20) (-20) 0 ≠ 40 ∧
      spec_momentum_from_adjustments (spec_rsi_zone_adjustment 0) (-10) (-20) 0 ≠ 40 ∧
      spec_momentum_from_adjustments (spec_rsi_zone_adjustment 50) 20 (-20) 0 ≠ 40 ∧
      spec_momentum_from_adjustments (spec_rsi_zone_adjustment 50) 10 (-20) 0 ≠ 40 ∧
      spec_momentum_from_adjustments (spec_rsi_zone_adjustment 50) (-20) (-20) 0 ≠ 40 ∧
      spec_momentum_from_adjustments (spec_rsi_zone_adjustment 50) (-10) (-20) 0 ≠ 40 := by
  have heval : calculate_rsi_last 14 (List.replicate 15 (100 : ℚ)) = some 0 := by
    norm_num [calculate_rsi_last, calculate_rsi, gains, losses, series_diff,
      ewm_mean, ewm_go, float_eps, List.replicate]
  refine ⟨?_, heval, ?_, ?_, ?_, ?_, ?_, ?_, ?_, ?_⟩
  · rw [calculate_momentum_score, heval, macd_histogram_replicate]
    norm_num [List.getLast?_replicate]
  all_goals norm_num [spec_momentum_from_adjustments, spec_rsi_zone_adjustment]

/-- Claim C5 as amended: the momentum score is the baseline 50 plus
exactly two additive adjustments — the source's RSI zone (above 70 gives
-10; above 60 gives +15; above 50 gives +10; below 30 gives +10;
otherwise -10) and a sign-only MACD histogram adjustment (+20 when the
last histogram value is positive, else -20) — clamped to [0,100]; there
is no moving-average-alignment term and no 5-bar-return term. -/
theorem momentum_formula_c5 (df : List ℚ) :
    (calculate_momentum_score df).1 =
      spec_momentum_from_adjustments
        (code_rsi_zone_adjustment ((calculate_rsi_last 14 df).getD 50))
        (if (calculate_macd_histogram df).getLast?.getD 0 > 0 then 20 else -20) 0 0 := by
  unfold calculate_momentum_score spec_momentum_from_adjustments code_rsi_zone_adjustment
  dsimp only
  generalize (calculate_rsi_last 14 df).getD 50 = r
  generalize (calculate_macd_histogram df).getLast?.getD 0 = h
  split_ifs <;> norm_num

/-- Claim C6, counterexample: with stop loss 100, moving the current
price from 90 to 105 strictly decreases the distance to the stop
(from 10 to 5), yet the risk score strictly decreases from 100 to 0 —
it is not non-decreasing under the claim's premise, which constrains
only the absolute distance. -/
theorem sl_risk_monotone_c6_counterexample :
    |(105 : ℚ) - 100| < |(90 : ℚ) - 100| ∧
      (predict_sl_risk [] 105 100 "LONG" 100).risk_score <
        (predict_sl_risk [] 90 100 "LONG" 100).risk_score := by
  constructor
  · norm_num
  · norm_num [predict_sl_risk]

/-- Claim C6 as amended: for a LONG position with positive stop loss, as
the current price moves down toward the stop without changing side (both
prices positive, the lower one still positive), the risk score is
non-decreasing: the percentage distance (current - stop)/current * 100 is
monotone in the current price and the tier function is antitone. -/
theorem sl_risk_monotone_c6 (df : List ℚ) (entry_price stop_loss cp1 cp2 : ℚ)
    (hsl : 0 < stop_loss) (h2 : 0 < cp2) (h21 : cp2 ≤ cp1) :
    (predict_sl_risk df cp1 stop_loss "LONG" entry_price).risk_score ≤
      (predict_sl_risk df cp2 stop_loss "LONG" entry_price).risk_score := by
  have h1 : 0 < cp1 := lt_of_lt_of_le h2 h21
  have hd : (cp2 - stop_loss) / cp2 * 100 ≤ (cp1 - stop_loss) / cp1 * 100 := by
    refine mul_le_mul_of_nonneg_right ?_ (by norm_num)
    rw [div_le_div_iff h2 h1]
    nlinarith
  unfold predict_sl_risk
  dsimp only
  rw [if_pos rfl, if_pos rfl]
  refine min_le_min le_rfl ?_
  set d1 := (cp1 - stop_loss) / cp1 * 100 with hd1
  set d2 := (cp2 - stop_loss) / cp2 * 100 with hd2
  split_ifs <;> norm_num <;> linarith

/-- Witness for the amended claim C6: moving from 105 to 95 with stop
loss 100 does not decrease the risk score. -/
theorem sl_risk_monotone_c6_witness :
    (predict_sl_risk [] 105 100 "LONG" 100).risk_score ≤
      (predict_sl_risk [] 95 100 "LONG" 100).risk_score :=
  sl_risk_monotone_c6 [] 100 100 105 95 (by norm_num) (by norm_num) (by norm_num)

/-- Concrete one-bar price series used to evaluate the analyzer: a single
close at 130. -/
def sample_series : List ℚ := [130]

/-- The analyzer's result on sample_series for a LONG position entered at
100 with stop 80, targets 110 and 120, alert threshold 50: price 130 is
beyond both targets while the stop-loss risk is 0. -/
def sample_result : AnalysisResult :=
  { ticker := "TCS"
    position_type := "LONG"
    entry_price := 100
    current_price := 130
    quantity := 1
    pnl_percent := 30
    pnl_amount := 30
    day_change := 0
    stop_loss := 80
    target1 := 110
    target2 := 120
    rsi := 50
    macd_hist := 0
    macd_signal := "BEARISH"
    momentum_score := 20
    momentum_trend := "STRONG BEARISH"
    sl_risk := 0
    sl_reasons := []
    sl_recommendation := "✅ SAFE"
    alerts := []
    overall_status := "OK"
    df := [130]
    day_low := none
    day_high := none }

/-- Evaluating smart_analyze_position on the concrete sample input. -/
theorem smart_analyze_sample :
    smart_analyze_position (some sample_series) "TCS" "LONG" 100 1 80 110 120 2 50 true none
      = some sample_result := by
  norm_num [smart_analyze_position, sample_series, sample_result, predict_sl_risk,
    calculate_momentum_score, calculate_rsi_last, calculate_macd_histogram,
    ewm_mean, ewm_go]

/-- Claim C1, counterexample: on the sample input the current price 130
has reached target_2 = 120 without a stop-loss breach, so the claim's
rule list gives SUCCESS, but the source returns OK — the analyzer has no
target-reached, gain, or breach rules, only the two sl_risk rules. -/
theorem overall_status_c1_counterexample :
    (smart_analyze_position (some [130]) "TCS" "LONG" 100 1 80 110 120 2 50 true none).map
        (fun r => r.overall_status) = some "OK" ∧
      spec_overall_status_long 130 80 110 120 0 50 30 = "SUCCESS" ∧
      ("OK" : String) ≠ "SUCCESS" := by
  refine ⟨?_, by norm_num [spec_overall_status_long], by decide⟩
  norm_num [smart_analyze_position, predict_sl_risk, calculate_momentum_score,
    calculate_rsi_last, calculate_macd_histogram, ewm_mean, ewm_go]

/-- Claim C1 as amended: for every analyzed position the overall status
is decided by exactly two ordered rules on the stop-loss risk score:
sl_risk of at least 80 gives CRITICAL (alert action EXIT NOW), otherwise
sl_risk at or above the alert threshold gives WARNING (alert action WATCH
CLOSELY), otherwise OK; there are no target-reached or unrealized-gain
statuses. -/
theorem overall_status_c1 (price_data : Option (List ℚ)) (ticker position_type : String)
    (entry_price quantity stop_loss target1 target2 trail_threshold sl_alert_threshold : ℚ)
    (enable_mtf : Bool) (entry_date : Option String) (r : AnalysisResult)
    (h : smart_analyze_position price_data ticker position_type entry_price quantity
      stop_loss target1 target2 trail_threshold sl_alert_threshold enable_mtf entry_date
      = some r) :
    r.overall_status =
      if r.sl_risk ≥ 80 then "CRITICAL"
      else if r.sl_risk ≥ sl_alert_threshold then "WARNING"
      else "OK" := by
  cases price_data with
  | none => simp [smart_analyze_position] at h
  | some df =>
    simp only [smart_analyze_position] at h
    split at h
    · exact absurd h (by simp)
    · split at h <;> split at h
      · exact absurd h (by simp)
      · have heq := Option.some.inj h
        subst heq
        rfl
      · exact absurd h (by simp)
      · have heq := Option.some.inj h
        subst heq
        rfl

/-- Witness for the amended claim C1 on the concrete sample input. -/
theorem overall_status_c1_witness :
    sample_result.overall_status =
      if sample_result.sl_risk ≥ 80 then "CRITICAL"
      else if sample_result.sl_risk ≥ 50 then "WARNING"
      else "OK" :=
  overall_status_c1 (some sample_series) "TCS" "LONG" 100 1 80 110 120 2 50 true none
    sample_result smart_analyze_sample

/-- Claim C7: a position whose price series is missing (none) or empty
yields no result — not an exception — and the batch loop simply skips it,
while a position whose analysis yields a result contributes it to the
batch output in order. -/
theorem missing_data_c7 (price_data : String → Option (List ℚ))
    (row : PositionRow) (rest : List PositionRow) (trail_threshold sl_alert_threshold : ℚ) :
    (price_data row.ticker = none ∨ price_data row.ticker = some [] →
      smart_analyze_position (price_data row.ticker) row.ticker row.position row.entry_price
          row.quantity row.stop_loss row.target_1 row.target_2 trail_threshold
          sl_alert_threshold true none = none ∧
        analyze_batch price_data trail_threshold sl_alert_threshold (row :: rest) =
          analyze_batch price_data trail_threshold sl_alert_threshold rest) ∧
    (∀ result, smart_analyze_position (price_data row.ticker) row.ticker row.position
          row.entry_price row.quantity row.stop_loss row.target_1 row.target_2 trail_threshold
          sl_alert_threshold true none = some result →
      analyze_batch price_data trail_threshold sl_alert_threshold (row :: rest) =
        result :: analyze_batch price_data trail_threshold sl_alert_threshold rest) := by
  constructor
  · intro hmiss
    have hs : smart_analyze_position (price_data row.ticker) row.ticker row.position
        row.entry_price row.quantity row.stop_loss row.target_1 row.target_2 trail_threshold
        sl_alert_threshold true none = none := by
      rcases hmiss with hm | hm <;> rw [hm] <;> simp [smart_analyze_position]
    exact ⟨hs, by simp only [analyze_batch, hs]⟩
  · intro result hr
    simp only [analyze_batch, hr]

/-- Witness for claim C7: a one-row batch whose fetch always fails
produces the empty result list. -/
theorem missing_data_c7_witness :
    smart_analyze_position none "TCS" "LONG" 100 1 80 110 120 2 50 true none = none ∧
      analyze_batch (fun _ => none) 2 50 [⟨"TCS", "LONG", 100, 1, 80, 110, 120⟩] =
        analyze_batch (fun _ => none) 2 50 [] :=
  (missing_data_c7 (fun _ => none) ⟨"TCS", "LONG", 100, 1, 80, 110, 120⟩ [] 2 50).1
    (Or.inl rfl)

/-- Claim C8, the code bug at a concrete portfolio: TCS (sector IT) with
quantity 1 at entry 100 and RELIANCE (sector ENERGY) with quantity 10 at
entry 10.  Each position is worth 100, so IT holds 50% of the summed
position value and the claim requires an OVER-CONCENTRATED warning; the
source instead divides by Quantity.sum() * Entry_Price.mean()
= 11 * 55 = 605, reports IT at 2000/121 (about 16.5%), and emits no
warning at all. -/
theorem sector_exposure_c8_bug :
    (analyze_sector_exposure [⟨"TCS", "LONG", 100, 1, 80, 110, 120⟩,
        ⟨"RELIANCE", "LONG", 10, 10, 8, 11, 12⟩]).warnings = [] ∧
      (analyze_sector_exposure [⟨"TCS", "LONG", 100, 1, 80, 110, 120⟩,
        ⟨"RELIANCE", "LONG", 10, 10, 8, 11, 12⟩]).percentage =
        [("IT", 2000 / 121), ("ENERGY", 2000 / 121)] ∧
      ((1 : ℚ) * 100) / (1 * 100 + 10 * 10) * 100 = 50 ∧
      ¬((2000 : ℚ) / 121 > 40) ∧ ((50 : ℚ) > 40) := by
  refine ⟨?_, ?_, by norm_num, by norm_num, by norm_num⟩ <;>
    norm_num +decide [analyze_sector_exposure, add_exposure, sector_map]

/-- Claim C9, counterexample: with benchmark price 100 below SMA20 = 101
and SMA50 = 102, neutral RSI 50 and VIX 20, the health score is 35; the
claim's four-tier mapping would label 35 as WEAK, but the source has no
WEAK tier and returns BEARISH (and its result dict carries no
sl_adjustment key). -/
theorem market_status_c9_counterexample :
    (get_market_health 100 0 101 102 50 20).health_score = 35 ∧
      (get_market_health 100 0 101 102 50 20).status = "BEARISH" ∧
      spec_market_health_status 35 = "WEAK" ∧
      ("BEARISH" : String) ≠ "WEAK" := by
  refine ⟨?_, ?_, by norm_num [spec_market_health_status], by decide⟩ <;>
    norm_num [get_market_health]

/-- The three-way status selection as a function of an abstract score:
BULLISH exactly at 70 and above, NEUTRAL exactly on [50, 70), BEARISH
exactly below 50. -/
theorem market_status_of_score (hs : ℚ) :
    ((if hs ≥ 70 then "BULLISH" else if hs ≥ 50 then "NEUTRAL" else "BEARISH") = "BULLISH" ↔
      70 ≤ hs) ∧
    ((if hs ≥ 70 then "BULLISH" else if hs ≥ 50 then "NEUTRAL" else "BEARISH") = "NEUTRAL" ↔
      50 ≤ hs ∧ hs < 70) ∧
    ((if hs ≥ 70 then "BULLISH" else if hs ≥ 50 then "NEUTRAL" else "BEARISH") = "BEARISH" ↔
      hs < 50) := by
  split_ifs with h1 h2
  · exact ⟨⟨fun _ => h1, fun _ => rfl⟩,
      ⟨fun hq => absurd hq (by decide), fun hc => absurd h1 (not_le_of_lt hc.2)⟩,
      ⟨fun hq => absurd hq (by decide),
        fun hlt => absurd h1 (not_le_of_lt (lt_of_lt_of_le hlt (by norm_num)))⟩⟩
  · exact ⟨⟨fun hq => absurd hq (by decide), fun hge => absurd hge h1⟩,
      ⟨fun _ => ⟨h2, lt_of_not_ge h1⟩, fun _ => rfl⟩,
      ⟨fun hq => absurd hq (by decide), fun hlt => absurd h2 (not_le_of_lt hlt)⟩⟩
  · exact ⟨⟨fun hq => absurd hq (by decide),
        fun hge => absurd (le_trans (by norm_num : (50 : ℚ) ≤ 70) hge) h2⟩,
      ⟨fun hq => absurd hq (by decide), fun hc => absurd hc.1 h2⟩,
      ⟨fun _ => lt_of_not_ge h2, fun _ => rfl⟩⟩

/-- Claim C9 as amended: the returned status is BULLISH exactly when the
health score is at least 70, NEUTRAL exactly when it is in [50, 70), and
BEARISH exactly when it is below 50; there is no WEAK tier and the result
carries an action string rather than an sl_adjustment hint. -/
theorem market_status_c9 (nifty_price nifty_change nifty_sma20 nifty_sma50
    nifty_rsi vix_value : ℚ) :
    ((get_market_health nifty_price nifty_change nifty_sma20 nifty_sma50 nifty_rsi
        vix_value).status = "BULLISH" ↔
      70 ≤ (get_market_health nifty_price nifty_change nifty_sma20 nifty_sma50 nifty_rsi
        vix_value).health_score) ∧
    ((get_market_health nifty_price nifty_change nifty_sma20 nifty_sma50 nifty_rsi
        vix_value).status = "NEUTRAL" ↔
      50 ≤ (get_market_health nifty_price nifty_change nifty_sma20 nifty_sma50 nifty_rsi
          vix_value).health_score ∧
        (get_market_health nifty_price nifty_change nifty_sma20 nifty_sma50 nifty_rsi
          vix_value).health_score < 70) ∧
    ((get_market_health nifty_price nifty_change nifty_sma20 nifty_sma50 nifty_rsi
        vix_value).status = "BEARISH" ↔
      (get_market_health nifty_price nifty_change nifty_sma20 nifty_sma50 nifty_rsi
        vix_value).health_score < 50) := by
  exact market_status_of_score _

/-- Claim C10: every result dict the analyzer produces lacks the day_low
and day_high keys, so the emergency detector's dict.get(day_low, 0) reads
0.  For a LONG result with positive stop loss, 0 < stop_loss * 0.98
always holds, so the detector reports an emergency with CRITICAL urgency
and the gap-down reason regardless of actual prices; for a SHORT result
with nonnegative stop loss the gap-up test 0 > stop_loss * 1.02 never
holds, so the gap-up reason never appears. -/
theorem emergency_gap_c10 (price_data : Option (List ℚ)) (ticker position_type : String)
    (entry_price quantity stop_loss target1 target2 trail_threshold sl_alert_threshold : ℚ)
    (enable_mtf : Bool) (entry_date : Option String) (r : AnalysisResult)
    (market_health : Option MarketHealth)
    (h : smart_analyze_position price_data ticker position_type entry_price quantity
      stop_loss target1 target2 trail_threshold sl_alert_threshold enable_mtf entry_date
      = some r) :
    (position_type = "LONG" → 0 < stop_loss →
      (detect_emergency_exit r market_health).1 = true ∧
        (detect_emergency_exit r market_health).2.2 = "CRITICAL" ∧
        EmergencyReason.gapDown ∈ (detect_emergency_exit r market_health).2.1) ∧
    (position_type = "SHORT" → 0 ≤ stop_loss →
      EmergencyReason.gapUp ∉ (detect_emergency_exit r market_health).2.1) := by
  have hfields : r.day_low = none ∧ r.day_high = none ∧
      r.position_type = position_type ∧ r.stop_loss = stop_loss := by
    cases price_data with
    | none => simp [smart_analyze_position] at h
    | some df =>
      simp only [smart_analyze_position] at h
      split at h
      · exact absurd h (by simp)
      · split at h <;> split at h
        · exact absurd h (by simp)
        · have heq := Option.some.inj h
          subst heq
          exact ⟨rfl, rfl, rfl, rfl⟩
        · exact absurd h (by simp)
        · have heq := Option.some.inj h
          subst heq
          exact ⟨rfl, rfl, rfl, rfl⟩
  obtain ⟨hdl, hdh, hpt, hsl⟩ := hfields
  constructor
  · intro hlong hpos
    have hgap : (0 : ℚ) < stop_loss * (98 / 100) := mul_pos hpos (by norm_num)
    unfold detect_emergency_exit
    rw [hdl, hpt, hsl, hlong]
    simp only [Option.getD_none, if_pos rfl, if_pos hgap]
    split_ifs <;> simp [List.mem_append]
  · intro hshort hnonneg
    have hnogap : ¬((0 : ℚ) > stop_loss * (102 / 100)) := by
      simp only [not_lt]
      positivity
    unfold detect_emergency_exit
    rw [hdh, hpt, hsl, hshort]
    simp only [Option.getD_none]
    split_ifs <;>
      first
        | (exfalso; exact hnogap (by assumption))
        | simp [List.mem_append]

/-- Witness for claim C10: on the sample LONG result (stop loss 80) and
no market-health dict, the detector reports an emergency with CRITICAL
urgency and the gap-down reason. -/
theorem emergency_gap_c10_witness :
    (detect_emergency_exit sample_result none).1 = true ∧
      (detect_emergency_exit sample_result none).2.2 = "CRITICAL" ∧
      EmergencyReason.gapDown ∈ (detect_emergency_exit sample_result none).2.1 :=
  (emergency_gap_c10 (some sample_series) "TCS" "LONG" 100 1 80 110 120 2 50 true none
    sample_result none smart_analyze_sample).1 rfl (by norm_num)
